import Mathlib

/-!
Verification development for the Telegram scheduled-posting agent
(`ai_agent.py`).  The Python source is shallowly embedded: every method of
`TelegramPoster` that the properties below talk about is translated into a
pure Lean function.  External collaborators (file system, HTTP client,
Telegram SDK, APScheduler trigger engine) are modelled as oracles: a
`World` record of functions saying how each external call would behave,
and an `Effect` trace recording the externally visible actions the code
performs, in order.
-/

/-- Kind of the file-system object a resolved path names: a regular file,
a directory, or nothing (the path does not exist). -/
inductive FileKind where
  | file
  | dir
  | absent
deriving DecidableEq, Repr

/-- Oracle for the external world.  `resolve` models
`Path(p).expanduser().resolve()` (user-home expansion plus resolution to an
absolute path); `kind` and `readable` model `Path.is_file` / `Path.exists` /
`os.access(p, os.R_OK)` on the resolved path; `openOk` tells whether
`open(p, "rb")` succeeds; `httpStatus` is the status code `requests.post`
returns for the upload, `none` meaning the call raises; `textSendRaises`
tells whether `bot.send_message` raises. -/
structure World where
  resolve : String → String
  kind : String → FileKind
  readable : String → Bool
  openOk : String → Bool
  httpStatus : Option Nat
  textSendRaises : Bool

/-- One scheduled-post record from `config.json`.  Python posts are JSON
dicts, so every field may be missing; `none` models an absent key.
`rep` embeds the `repeat` key (`repeat` is not a usable Lean identifier). -/
structure Post where
  text : Option String := none
  media : Option String := none
  time : Option String := none
  rep : Option String := none
deriving DecidableEq, Repr

/-- Externally visible actions of the agent, in program order.
`mediaSendCall raw caption` marks an invocation of `_send_media` (the
spec's "Image send" operation) with the raw, unresolved path;
`httpPost` is one `requests.post` upload request; `textSend` is one
`bot.send_message`; `replyText` is one `update.message.reply_text`;
`stopScheduler w` is `scheduler.shutdown(wait=w)`. -/
inductive Effect where
  | replyText (msg : String)
  | textSend (chatId text parseMode : String)
  | mediaSendCall (rawPath caption : String)
  | httpPost (url chatId caption : String)
  | getMeCall
  | schedulerStart
  | stopScheduler (waitFlag : Bool)
  | logInfo
  | logError
deriving DecidableEq, Repr

/-- Python exceptions that the embedded code distinguishes.
`notConfigured` is the `RuntimeError("Bot instance not set")` raised by
`initialize` (the spec's `NotConfigured` error). -/
inductive PyError where
  | notConfigured
  | keyError
  | valueError
  | other
deriving DecidableEq, Repr

/-- Gregorian leap-year test, as in Python's `calendar`/`datetime`. -/
def isLeap (y : Nat) : Bool :=
  (y % 4 == 0 && y % 100 != 0) || y % 400 == 0

/-- Number of days in month `m` of year `y` (months are 1-based). -/
def daysInMonth (y m : Nat) : Nat :=
  match m with
  | 2 => if isLeap y then 29 else 28
  | 4 | 6 | 9 | 11 => 30
  | _ => 31

/-- Days in year `y` before the first day of month `m`. -/
def daysBeforeMonth (y m : Nat) : Nat :=
  (List.range (m - 1)).foldl (fun acc i => acc + daysInMonth y (i + 1)) 0

/-- Rata-die day number of the proleptic Gregorian date `y-m-d`
(0001-01-01 is day 1). -/
def rataDie (y m d : Nat) : Nat :=
  365 * (y - 1) + (y - 1) / 4 - (y - 1) / 100 + (y - 1) / 400 + daysBeforeMonth y m + d

/-- Wall-clock timestamp with the six fields a Python `datetime` carries
(no timezone; the agent never uses one). -/
structure PyDateTime where
  year : Nat
  month : Nat
  day : Nat
  hour : Nat
  minute : Nat
  second : Nat
deriving DecidableEq, Repr

/-- Weekday of a date, with Monday = 0 … Sunday = 6, exactly the
convention of Python's `datetime.weekday()` (0001-01-01 is a Monday). -/
def weekday (t : PyDateTime) : Nat :=
  (rataDie t.year t.month t.day + 6) % 7

/-- Numeric value of an ASCII digit character, `none` otherwise. -/
def digitVal (c : Char) : Option Nat :=
  if c.isDigit then some (c.toNat - 48) else none

/-- Two-digit decimal field of a `strptime` format. -/
def parse2 (a b : Char) : Option Nat := do
  let x ← digitVal a
  let y ← digitVal b
  pure (10 * x + y)

/-- Four-digit decimal field of a `strptime` format. -/
def parse4 (a b c d : Char) : Option Nat := do
  let x ← digitVal a
  let y ← digitVal b
  let z ← digitVal c
  let u ← digitVal d
  pure (1000 * x + 100 * y + 10 * z + u)

/-- Embedding of `datetime.strptime(s, "%Y-%m-%d %H:%M:%S")`: parses the
canonical zero-padded form of that format and enforces `datetime`'s field
ranges (year ≥ 1, valid month/day for the month, hour ≤ 23,
minute/second ≤ 59).  `none` models the `ValueError` Python raises. -/
def strptime (s : String) : Option PyDateTime :=
  match s.toList with
  | [y1, y2, y3, y4, '-', m1, m2, '-', d1, d2, ' ', h1, h2, ':', n1, n2, ':', s1, s2] => do
      let y ← parse4 y1 y2 y3 y4
      let mo ← parse2 m1 m2
      let d ← parse2 d1 d2
      let h ← parse2 h1 h2
      let mi ← parse2 n1 n2
      let se ← parse2 s1 s2
      if 1 ≤ y ∧ 1 ≤ mo ∧ mo ≤ 12 ∧ 1 ≤ d ∧ d ≤ daysInMonth y mo ∧ h ≤ 23 ∧ mi ≤ 59 ∧ se ≤ 59 then
        pure ⟨y, mo, d, h, mi, se⟩
      else
        none
  | _ => none

/-- Date-field constraint of a cron trigger as `_setup_scheduler` builds
it: `everyDay` is the explicit `day="*"` of the daily branch, `weeklyOn`
is `day_of_week=…`, `monthlyOn` is `day=…`, and `onceOn` is the fixed
`year=…, month=…, day=…` of the once/fallback branch (in APScheduler the
omitted more-significant fields default to `*`). -/
inductive DateSpec where
  | everyDay
  | weeklyOn (dow : Nat)
  | monthlyOn (dayOfMonth : Nat)
  | onceOn (year month day : Nat)
deriving DecidableEq, Repr

/-- The `CronTrigger` the code constructs: an hour and minute constraint
plus one of the four date-field constraints above. -/
structure CronTrigger where
  hour : Nat
  minute : Nat
  dateSpec : DateSpec
deriving DecidableEq, Repr

/-- Trigger construction of `_setup_scheduler`, lines 72–79: from the
parsed `time` and the `repeat` string, build the `CronTrigger` via the
same four-way conditional as the Python dict-merge expression. -/
def mkTrigger (pt : PyDateTime) (rep : String) : CronTrigger :=
  { hour := pt.hour
    minute := pt.minute
    dateSpec :=
      if rep = "daily" then DateSpec.everyDay
      else if rep = "weekly" then DateSpec.weeklyOn (weekday pt)
      else if rep = "monthly" then DateSpec.monthlyOn pt.day
      else DateSpec.onceOn pt.year pt.month pt.day }

/-- Whether a trigger's date constraint matches a wall-clock instant.
This is the external trigger engine's firing semantics (spec §6): each
specified field must equal the instant's field; `*` matches anything. -/
def dateMatches : DateSpec → PyDateTime → Bool
  | DateSpec.everyDay, _ => true
  | DateSpec.weeklyOn w, t => weekday t == w
  | DateSpec.monthlyOn d, t => t.day == d
  | DateSpec.onceOn y m d, t => t.year == y && t.month == m && t.day == d

/-- Whether a constructed trigger fires at a given wall-clock instant
(minute granularity, which is the granularity the agent's triggers use). -/
def firesAt (c : CronTrigger) (t : PyDateTime) : Bool :=
  (t.hour == c.hour) && (t.minute == c.minute) && dateMatches c.dateSpec t

/-- Modelled from the spec's recurrence-rule table (§4.2): when a post
with parsed timestamp `pt` and repeat mode `rep` should fire, written
directly from the spec's words — daily at that hour:minute every day;
weekly on the timestamp's weekday; monthly on its day-of-month; once (or
any unrecognized value) exactly at that year/month/day hour:minute. -/
def specRuleFires (pt : PyDateTime) (rep : String) (t : PyDateTime) : Bool :=
  (t.hour == pt.hour) && (t.minute == pt.minute) &&
  (if rep = "daily" then true
   else if rep = "weekly" then weekday t == weekday pt
   else if rep = "monthly" then t.day == pt.day
   else (t.year == pt.year) && (t.month == pt.month) && (t.day == pt.day))

/-- Python's `str.strip()`: drop leading and trailing whitespace. -/
def pyStrip (s : String) : String :=
  String.mk (((s.toList.dropWhile Char.isWhitespace).reverse.dropWhile Char.isWhitespace).reverse)

/-- Embedding of `_validate_image_path` (lines 48–56): expand and resolve
the raw path, then return it exactly when it names an existing regular
file (`Path.is_file`) that is readable (`os.access(…, os.R_OK)`);
otherwise log an error and return `none`. -/
def validate_image_path (w : World) (path : String) : Option String :=
  if w.kind (w.resolve path) = FileKind.file ∧ w.readable (w.resolve path) = true then
    some (w.resolve path)
  else
    none

/-- Raw content of a successfully read and parsed `config.json`:
the `scheduled_posts` list (the consumer reads it with
`config.get("scheduled_posts", [])`, so an absent key is the empty list)
and the raw string under `image_path`, `none` when the key is absent
(`config.get("image_path", "")` then defaults it to `""`). -/
structure RawConfig where
  scheduled_posts : List Post := []
  image_path : Option String := none
deriving Repr

/-- Outcome of reading and parsing `config.json`: `failure` covers every
exception the `try` block of `_load_config` can see (unreadable file,
invalid JSON, non-dict document, non-string `image_path`). -/
inductive LoadResult where
  | failure
  | ok (raw : RawConfig)

/-- The configuration the agent keeps: the post list plus the validated
default-image path (`none` when validation failed or loading failed —
the fallback dict `{"scheduled_posts": []}` has no `image_path` key, so
`config.get("image_path")` yields `None`). -/
structure AgentConfig where
  scheduled_posts : List Post := []
  image_path : Option String := none
deriving Repr

/-- Embedding of `_load_config` (lines 37–46): on success, strip the raw
`image_path` value and replace it by its validation result
(`_validate_image_path(img_path) or None`); on any exception, log and
return the fallback config with an empty post list and no image. -/
def load_config (w : World) (r : LoadResult) : AgentConfig :=
  match r with
  | LoadResult.failure => { scheduled_posts := [], image_path := none }
  | LoadResult.ok raw =>
      { scheduled_posts := raw.scheduled_posts
        image_path := validate_image_path w (pyStrip (raw.image_path.getD "")) }

/-- Embedding of `_send_media` (lines 97–115).  The head effect marks the
invocation of the image-send operation itself; then the code resolves the
path, aborts with one logged error if nothing exists there, opens the
file (an `open` failure is caught by the method's own `try`), performs
one `requests.post` upload, and logs success on HTTP 200 and an error on
any other status or on a raised request.  The method never raises. -/
def sendMedia (w : World) (token chatId caption mediaPath : String) : List Effect :=
  Effect.mediaSendCall mediaPath caption ::
  (if w.kind (w.resolve mediaPath) = FileKind.absent then
    [Effect.logError]
  else if w.openOk (w.resolve mediaPath) = false then
    [Effect.logError]
  else
    Effect.httpPost ("https://api.telegram.org/bot" ++ token ++ "/sendPhoto") chatId caption ::
    (match w.httpStatus with
     | none => [Effect.logError]
     | some code => if code = 200 then [Effect.logInfo] else [Effect.logError]))

/-- Embedding of `_send_text` (lines 93–95): one `bot.send_message` with
`parse_mode="HTML"`, then an info log; if the send raises, the exception
propagates to the caller (`_send_post` catches it). -/
def sendText (w : World) (chatId text : String) : List Effect × Option PyError :=
  if w.textSendRaises then
    ([Effect.textSend chatId text "HTML"], some PyError.other)
  else
    ([Effect.textSend chatId text "HTML", Effect.logInfo], none)

/-- Embedding of `_send_post` (lines 84–91), the dispatch entry the
trigger engine fires.  `"media" in post` chooses the branch; both
branches read `post["text"]` first, so a missing `text` key raises
`KeyError` before any send happens.  The method's `try`/`except` catches
every exception from the body and turns it into one logged error, so the
result error component is always `none`. -/
def sendPost (w : World) (token chatId : String) (p : Post) : List Effect × Option PyError :=
  let inner : List Effect × Option PyError :=
    if p.media.isSome then
      match p.text, p.media with
      | some t, some m => (sendMedia w token chatId t m, none)
      | _, _ => ([], some PyError.keyError)
    else
      match p.text with
      | some t => sendText w chatId t
      | none => ([], some PyError.keyError)
  match inner with
  | (tr, some _) => (tr ++ [Effect.logError], none)
  | (tr, none) => (tr, none)

/-- Embedding of `send_default_image` (lines 117–125): before readiness,
reply "Bot not ready yet."; with readiness but a falsy configured image
(`None` or the empty string), reply "No default image configured.";
otherwise invoke the image send with the configured path and the fixed
caption. -/
def sendDefaultImage (w : World) (token chatId : String) (ready : Bool) (cfg : AgentConfig) : List Effect :=
  if ready = false then
    [Effect.replyText "Bot not ready yet."]
  else
    match cfg.image_path with
    | none => [Effect.replyText "No default image configured."]
    | some img =>
        if img = "" then
          [Effect.replyText "No default image configured."]
        else
          sendMedia w token chatId "Here\x27s the requested image!" img

/-- Scheduling of one post inside `_setup_scheduler`'s loop body: read
`post["time"]` (a missing key raises `KeyError`), parse it (`strptime`
raises `ValueError` on failure), and build the trigger from the parsed
time and `post.get("repeat", "once")`.  `none` models the exception path,
which the loop's `except` catches and logs before continuing. -/
def schedulePost (p : Post) : Option CronTrigger :=
  match p.time with
  | none => none
  | some ts =>
      match strptime ts with
      | none => none
      | some pt => some (mkTrigger pt (p.rep.getD "once"))

/-- The `enumerate` loop of `_setup_scheduler` from index `idx` on:
each post whose time parses registers one job (its index and trigger);
each failing post is logged and skipped, and the loop continues. -/
def setupFrom (idx : Nat) : List Post → List (Nat × CronTrigger)
  | [] => []
  | p :: rest =>
      match schedulePost p with
      | none => setupFrom (idx + 1) rest
      | some tr => (idx, tr) :: setupFrom (idx + 1) rest

/-- Embedding of `_setup_scheduler` (lines 67–82): the registered jobs,
as (index, trigger) pairs, for a post list. -/
def setup_scheduler (posts : List Post) : List (Nat × CronTrigger) :=
  setupFrom 0 posts

/-- State of a `TelegramPoster`: the optional bound bot client, the
readiness event, whether the trigger engine is running, the registered
jobs, and the loaded config. -/
structure PosterState where
  bot : Option Unit := none
  ready : Bool := false
  schedulerRunning : Bool := false
  jobs : List (Nat × CronTrigger) := []
  config : AgentConfig := {}
deriving Repr

/-- Embedding of `initialize` (lines 58–65): with no bot bound, raise
`RuntimeError("Bot instance not set")` before doing anything; otherwise
confirm identity with `get_me` (whose failure propagates), register the
triggers, start the engine, and set the readiness event. -/
def initPoster (getMeOk : Bool) (s : PosterState) : PosterState × List Effect × Option PyError :=
  match s.bot with
  | none => (s, [], some PyError.notConfigured)
  | some _ =>
      if getMeOk = false then
        (s, [Effect.getMeCall], some PyError.other)
      else
        ({ s with
            jobs := setup_scheduler s.config.scheduled_posts
            schedulerRunning := true
            ready := true },
         [Effect.getMeCall, Effect.logInfo, Effect.schedulerStart], none)

/-- Embedding of `shutdown` (lines 130–134): stop the trigger engine with
`wait=False` only when it is running, clear the readiness event, and log;
the method cannot raise. -/
def shutdownPoster (s : PosterState) : PosterState × List Effect :=
  ({ s with schedulerRunning := false, ready := false },
   (if s.schedulerRunning then [Effect.stopScheduler false] else []) ++ [Effect.logInfo])

/-- Whether an effect is an invocation of the image-send operation. -/
def isMediaCall : Effect → Bool
  | Effect.mediaSendCall _ _ => true
  | _ => false

/-- Whether an effect is an HTTP upload request. -/
def isHttpPost : Effect → Bool
  | Effect.httpPost _ _ _ => true
  | _ => false

/-- Whether an effect is a chat text-message send. -/
def isTextSend : Effect → Bool
  | Effect.textSend _ _ _ => true
  | _ => false

/-- Whether an effect is a reply to the requester. -/
def isReply : Effect → Bool
  | Effect.replyText _ => true
  | _ => false

/-- Whether an effect is a logged error. -/
def isLogError : Effect → Bool
  | Effect.logError => true
  | _ => false

/-- Whether an effect sends anything outward (image-send invocation,
upload request, or text message). -/
def isSend (e : Effect) : Bool :=
  isMediaCall e || isHttpPost e || isTextSend e

/-- Number of image-send invocations in a trace. -/
def numMediaCalls (tr : List Effect) : Nat := tr.countP (fun e => isMediaCall e)

/-- Number of HTTP upload requests in a trace. -/
def numHttpPosts (tr : List Effect) : Nat := tr.countP (fun e => isHttpPost e)

/-- Number of text-message sends in a trace. -/
def numTextSends (tr : List Effect) : Nat := tr.countP (fun e => isTextSend e)

/-- Number of replies to the requester in a trace. -/
def numReplies (tr : List Effect) : Nat := tr.countP (fun e => isReply e)

/-- Number of logged errors in a trace. -/
def numLogErrors (tr : List Effect) : Nat := tr.countP (fun e => isLogError e)

/-- Number of outward sends of any kind in a trace. -/
def numSends (tr : List Effect) : Nat := tr.countP (fun e => isSend e)

/-- Concrete world in which every external call succeeds: paths resolve to
themselves, every path is an existing readable regular file, and the
upload returns HTTP 200. -/
def wOk : World :=
  { resolve := fun s => s
    kind := fun _ => FileKind.file
    readable := fun _ => true
    openOk := fun _ => true
    httpStatus := some 200
    textSendRaises := false }

/-- Concrete world in which no path exists. -/
def wAbsent : World :=
  { resolve := fun s => s
    kind := fun _ => FileKind.absent
    readable := fun _ => false
    openOk := fun _ => false
    httpStatus := some 200
    textSendRaises := false }

/-- Concrete world in which every path names a directory. -/
def wDir : World :=
  { resolve := fun s => s
    kind := fun _ => FileKind.dir
    readable := fun _ => true
    openOk := fun _ => false
    httpStatus := some 200
    textSendRaises := false }

/-- Config with no default image configured. -/
def cfgNone : AgentConfig := {}

/-- Config with a default image configured. -/
def cfgImg : AgentConfig := { image_path := some "img.png" }

/-- A plain text post. -/
def pText : Post := { text := some "hello" }

/-- A media post. -/
def pMedia : Post := { text := some "hello", media := some "m.png" }

/-- A malformed media post whose required `text` key is missing. -/
def pNoText : Post := { media := some "m.png", time := some "2024-01-15 09:30:00" }

/-- A post whose `time` value does not parse. -/
def badPost : Post := { text := some "first", time := some "not a timestamp" }

/-- A well-formed daily post. -/
def goodPost : Post :=
  { text := some "second", time := some "2024-01-15 09:30:00", rep := some "daily" }

/-- A poster state whose trigger engine is running and readiness is set. -/
def sRun : PosterState := { schedulerRunning := true, ready := true }

/-- Helper: every `_send_media` trace contains exactly one image-send
invocation — the one for its own path and caption — and no text sends and
no replies, whatever the world does. -/
theorem sendMedia_counts (w : World) (token chatId caption path : String) :
    numMediaCalls (sendMedia w token chatId caption path) = 1 ∧
    numTextSends (sendMedia w token chatId caption path) = 0 ∧
    numReplies (sendMedia w token chatId caption path) = 0 ∧
    Effect.mediaSendCall path caption ∈ sendMedia w token chatId caption path := by
  obtain ⟨re, ki, rd, op, hs, tx⟩ := w
  unfold sendMedia numMediaCalls numTextSends numReplies
  dsimp only
  split_ifs with h1 h2
  · simp [isMediaCall, isTextSend, isReply]
  · simp [isMediaCall, isTextSend, isReply]
  · cases hs with
    | none => simp [isMediaCall, isTextSend, isReply]
    | some code =>
        by_cases h3 : code = 200 <;> simp [h3, isMediaCall, isTextSend, isReply]

/-- C1: the trigger `_setup_scheduler` derives for a parsed timestamp and a
repeat mode fires at exactly the instants the spec's recurrence-rule table
prescribes: `daily` every day at the timestamp's hour:minute; `weekly`
every week on the timestamp's weekday at that hour:minute; `monthly` every
month on its day-of-month at that hour:minute; `once` or any unrecognized
value exactly once, at that exact year/month/day hour:minute. -/
theorem trigger_rule_follows_spec (pt : PyDateTime) (rep : String) (t : PyDateTime) :
    firesAt (mkTrigger pt rep) t = specRuleFires pt rep t := by
  unfold firesAt mkTrigger specRuleFires
  split_ifs <;> rfl

/-- C4: when reading or parsing `config.json` fails, `_load_config` does
not raise; it returns the fallback configuration with an empty
scheduled-post list and no default image. -/
theorem load_config_failure_fallback (w : World) :
    load_config w LoadResult.failure = { scheduled_posts := [], image_path := none } := rfl

/-- C6: when the resolved media path does not exist at send time,
`_send_media` aborts before any network call: its trace is the image-send
invocation marker followed by exactly one logged error, with zero HTTP
upload requests. -/
theorem send_media_missing_file (w : World) (token chatId caption path : String)
    (h : w.kind (w.resolve path) = FileKind.absent) :
    sendMedia w token chatId caption path = [Effect.mediaSendCall path caption, Effect.logError] ∧
    numHttpPosts (sendMedia w token chatId caption path) = 0 ∧
    numLogErrors (sendMedia w token chatId caption path) = 1 := by
  have he : sendMedia w token chatId caption path =
      [Effect.mediaSendCall path caption, Effect.logError] := by
    unfold sendMedia
    rw [if_pos h]
  refine ⟨he, ?_, ?_⟩ <;> rw [he] <;> rfl

/-- Witness for C6: in a world where no path exists, sending media issues
no HTTP request and logs one error. -/
theorem send_media_missing_file_witness :
    sendMedia wAbsent "tok" "chat" "cap" "pic.png" =
      [Effect.mediaSendCall "pic.png" "cap", Effect.logError] ∧
    numHttpPosts (sendMedia wAbsent "tok" "chat" "cap" "pic.png") = 0 :=
  ⟨(send_media_missing_file wAbsent "tok" "chat" "cap" "pic.png" rfl).1,
   (send_media_missing_file wAbsent "tok" "chat" "cap" "pic.png" rfl).2.1⟩

/-- C7: `_validate_image_path` returns exactly the resolved path, and only
when the resolved path names an existing readable regular file; for a
nonexistent path, a directory, or an unreadable file it returns nothing. -/
theorem validate_image_path_spec (w : World) (raw : String) :
    (∀ a, validate_image_path w raw = some a ↔
      (a = w.resolve raw ∧ w.kind (w.resolve raw) = FileKind.file ∧
        w.readable (w.resolve raw) = true)) ∧
    ((w.kind (w.resolve raw) ≠ FileKind.file ∨ w.readable (w.resolve raw) = false) →
      validate_image_path w raw = none) := by
  unfold validate_image_path
  constructor
  · intro a
    split_ifs with h
    · simp only [Option.some.injEq]
      constructor
      · intro he
        exact ⟨he.symm, h.1, h.2⟩
      · intro hc
        exact hc.1.symm
    · constructor
      · intro he
        exact absurd he (by simp)
      · intro hc
        exact absurd ⟨hc.2.1, hc.2.2⟩ h
  · intro hneg
    split_ifs with h
    · rcases hneg with hk | hr
      · exact absurd h.1 hk
      · rw [h.2] at hr
        exact absurd hr (by simp)
    · rfl

/-- Witness for C7: validation accepts a readable regular file and rejects
a directory. -/
theorem validate_image_path_spec_witness :
    validate_image_path wOk "img.png" = some "img.png" ∧
    validate_image_path wDir "img.png" = none :=
  ⟨((validate_image_path_spec wOk "img.png").1 "img.png").mpr ⟨rfl, rfl, rfl⟩,
   (validate_image_path_spec wDir "img.png").2 (Or.inl (by decide))⟩

/-- C8: `initialize` with no bound bot client fails with the
`NotConfigured` error before doing anything else: the state is returned
unchanged (readiness still as it was, no triggers added) and the effect
trace is empty — in particular no identity round-trip happens. -/
theorem init_requires_bot (g : Bool) (s : PosterState) (h : s.bot = none) :
    initPoster g s = (s, [], some PyError.notConfigured) ∧
    (initPoster g s).1.ready = s.ready ∧
    (initPoster g s).1.jobs = s.jobs ∧
    (initPoster g s).2.1 = [] := by
  have he : initPoster g s = (s, [], some PyError.notConfigured) := by
    unfold initPoster
    rw [h]
  exact ⟨he, by rw [he], by rw [he], by rw [he]⟩

/-- Witness for C8: initializing a fresh poster with no bot attached
returns the unchanged state and the `NotConfigured` error. -/
theorem init_requires_bot_witness :
    initPoster true ({} : PosterState) = (({} : PosterState), [], some PyError.notConfigured) :=
  (init_requires_bot true {} rfl).1

/-- C9: `shutdown` clears the readiness signal and leaves the trigger
engine stopped; it emits a stop request exactly when the engine was
running, always with `wait=False`; and it is idempotent — a second call
from the post-shutdown state leaves the state unchanged and emits no
further stop request. -/
theorem shutdown_spec (s : PosterState) :
    (shutdownPoster s).1.ready = false ∧
    (shutdownPoster s).1.schedulerRunning = false ∧
    (s.schedulerRunning = true →
      (shutdownPoster s).2 = [Effect.stopScheduler false, Effect.logInfo]) ∧
    (s.schedulerRunning = false → (shutdownPoster s).2 = [Effect.logInfo]) ∧
    (∀ b, Effect.stopScheduler b ∈ (shutdownPoster s).2 → b = false) ∧
    (shutdownPoster (shutdownPoster s).1).1 = (shutdownPoster s).1 ∧
    (shutdownPoster (shutdownPoster s).1).2 = [Effect.logInfo] := by
  unfold shutdownPoster
  by_cases hr : s.schedulerRunning <;> simp [hr]

/-- Witness for C9: shutting down a running poster clears readiness, stops
the engine without waiting, and a second shutdown only logs. -/
theorem shutdown_spec_witness :
    (shutdownPoster sRun).1.ready = false ∧
    (shutdownPoster sRun).2 = [Effect.stopScheduler false, Effect.logInfo] ∧
    (shutdownPoster (shutdownPoster sRun).1).2 = [Effect.logInfo] :=
  ⟨(shutdown_spec sRun).1, (shutdown_spec sRun).2.2.1 rfl, (shutdown_spec sRun).2.2.2.2.2.2⟩

/-- C2: `send_default_image` has exactly three behaviors — before
readiness it replies "Bot not ready yet." and sends nothing; with
readiness but no (or an empty) configured image it replies "No default
image configured." and sends nothing; with readiness and a configured
image it performs exactly one image-send invocation, with the configured
path and the fixed caption, and no reply. -/
theorem send_default_image_spec (w : World) (token chatId : String) (ready : Bool)
    (cfg : AgentConfig) :
    (ready = false →
      sendDefaultImage w token chatId ready cfg = [Effect.replyText "Bot not ready yet."] ∧
      numSends (sendDefaultImage w token chatId ready cfg) = 0) ∧
    (ready = true → cfg.image_path.getD "" = "" →
      sendDefaultImage w token chatId ready cfg =
        [Effect.replyText "No default image configured."] ∧
      numSends (sendDefaultImage w token chatId ready cfg) = 0) ∧
    (∀ img, ready = true → cfg.image_path = some img → img ≠ "" →
      numMediaCalls (sendDefaultImage w token chatId ready cfg) = 1 ∧
      Effect.mediaSendCall img "Here\x27s the requested image!" ∈
        sendDefaultImage w token chatId ready cfg ∧
      numReplies (sendDefaultImage w token chatId ready cfg) = 0 ∧
      numTextSends (sendDefaultImage w token chatId ready cfg) = 0) := by
  refine ⟨?_, ?_, ?_⟩
  · rintro rfl
    exact ⟨rfl, rfl⟩
  · rintro rfl hi
    rcases hip : cfg.image_path with _ | img
    · constructor
      · simp [sendDefaultImage, hip]
      · simp [sendDefaultImage, hip, numSends, isSend, isMediaCall, isHttpPost, isTextSend]
    · rw [hip] at hi
      simp only [Option.getD_some] at hi
      constructor
      · simp [sendDefaultImage, hip, hi]
      · simp [sendDefaultImage, hip, hi, numSends, isSend, isMediaCall, isHttpPost, isTextSend]
  · rintro img rfl hip hne
    have he : sendDefaultImage w token chatId true cfg =
        sendMedia w token chatId "Here\x27s the requested image!" img := by
      simp [sendDefaultImage, hip, hne]
    obtain ⟨c1, c2, c3, c4⟩ := sendMedia_counts w token chatId "Here\x27s the requested image!" img
    rw [he]
    exact ⟨c1, c4, c3, c2⟩

/-- Witness for C2: the three behaviors at concrete inputs — not ready,
ready with no image, ready with an image. -/
theorem send_default_image_spec_witness :
    sendDefaultImage wOk "tok" "chat" false cfgImg = [Effect.replyText "Bot not ready yet."] ∧
    sendDefaultImage wOk "tok" "chat" true cfgNone =
      [Effect.replyText "No default image configured."] ∧
    numMediaCalls (sendDefaultImage wOk "tok" "chat" true cfgImg) = 1 :=
  ⟨((send_default_image_spec wOk "tok" "chat" false cfgImg).1 rfl).1,
   ((send_default_image_spec wOk "tok" "chat" true cfgNone).2.1 rfl rfl).1,
   ((send_default_image_spec wOk "tok" "chat" true cfgImg).2.2 "img.png" rfl rfl (by decide)).1⟩

/-- C3: `_send_post` never propagates an error (its result's exception
component is always `none`); for a post with its required text, a
media-less post performs exactly one text send and no image send, a media
post performs exactly one image-send invocation and no text send, and a
raised text-send error is logged. -/
theorem send_post_dispatch (w : World) (token chatId : String) (p : Post) :
    (sendPost w token chatId p).2 = none ∧
    (∀ t, p.text = some t → p.media = none →
      numTextSends (sendPost w token chatId p).1 = 1 ∧
      numMediaCalls (sendPost w token chatId p).1 = 0) ∧
    (∀ t m, p.text = some t → p.media = some m →
      numMediaCalls (sendPost w token chatId p).1 = 1 ∧
      numTextSends (sendPost w token chatId p).1 = 0) ∧
    (∀ t, p.text = some t → p.media = none → w.textSendRaises = true →
      Effect.logError ∈ (sendPost w token chatId p).1) := by
  refine ⟨?_, ?_, ?_, ?_⟩
  · rcases hm : p.media with _ | m <;> rcases ht : p.text with _ | t <;>
      by_cases tx : w.textSendRaises <;>
      simp [sendPost, hm, ht, sendText, tx]
  · intro t ht hm
    by_cases tx : w.textSendRaises <;>
      constructor <;>
      simp [sendPost, hm, ht, sendText, tx, numTextSends, numMediaCalls, isTextSend, isMediaCall,
        List.countP_cons, List.countP_nil, List.countP_append]
  · intro t m ht hm
    have he : (sendPost w token chatId p).1 = sendMedia w token chatId t m := by
      simp [sendPost, hm, ht]
    obtain ⟨c1, c2, _, _⟩ := sendMedia_counts w token chatId t m
    rw [he]
    exact ⟨c1, c2⟩
  · intro t ht hm tx
    simp [sendPost, hm, ht, sendText, tx]

/-- Witness for C3: a text post performs one text send, a media post one
image-send invocation, and dispatch reports no exception. -/
theorem send_post_dispatch_witness :
    numTextSends (sendPost wOk "tok" "chat" pText).1 = 1 ∧
    numMediaCalls (sendPost wOk "tok" "chat" pMedia).1 = 1 ∧
    (sendPost wOk "tok" "chat" pMedia).2 = none :=
  ⟨((send_post_dispatch wOk "tok" "chat" pText).2.1 "hello" rfl rfl).1,
   ((send_post_dispatch wOk "tok" "chat" pMedia).2.2.1 "hello" "m.png" rfl rfl).1,
   (send_post_dispatch wOk "tok" "chat" pMedia).1⟩

/-- C10: dispatching a post that lacks the required `text` key raises
nothing to the caller and performs no send of any kind: the `KeyError`
is caught by `_send_post`'s handler, which only logs one error. -/
theorem send_post_missing_text (w : World) (token chatId : String) (p : Post)
    (h : p.text = none) :
    sendPost w token chatId p = ([Effect.logError], none) ∧
    numSends (sendPost w token chatId p).1 = 0 ∧
    numTextSends (sendPost w token chatId p).1 = 0 ∧
    numHttpPosts (sendPost w token chatId p).1 = 0 ∧
    numMediaCalls (sendPost w token chatId p).1 = 0 ∧
    numLogErrors (sendPost w token chatId p).1 = 1 := by
  have he : sendPost w token chatId p = ([Effect.logError], none) := by
    rcases hm : p.media with _ | m <;> simp [sendPost, h, hm]
  exact ⟨he, by rw [he]; rfl, by rw [he]; rfl, by rw [he]; rfl, by rw [he]; rfl, by rw [he]; rfl⟩

/-- Witness for C10: a media post without `text` dispatches to a single
logged error and zero sends. -/
theorem send_post_missing_text_witness :
    sendPost wOk "tok" "chat" pNoText = ([Effect.logError], none) ∧
    numSends (sendPost wOk "tok" "chat" pNoText).1 = 0 :=
  ⟨(send_post_missing_text wOk "tok" "chat" pNoText rfl).1,
   (send_post_missing_text wOk "tok" "chat" pNoText rfl).2.1⟩

/-- Helper: if the post at position `i` schedules to trigger `tr`, then
`(k + i, tr)` is registered by the loop started at index `k`, no matter
how many other posts fail. -/
theorem setupFrom_mem (tr : CronTrigger) :
    ∀ (posts : List Post) (k i : Nat) (p : Post),
      posts.get? i = some p → schedulePost p = some tr →
      (k + i, tr) ∈ setupFrom k posts := by
  intro posts
  induction posts with
  | nil =>
      intro k i p hp _
      simp at hp
  | cons q rest ih =>
      intro k i p hp hs
      cases i with
      | zero =>
          simp only [List.get?_cons_zero, Option.some.injEq] at hp
          subst hp
          unfold setupFrom
          rw [hs]
          simp
      | succ n =>
          have hmem := ih (k + 1) n p (by simpa using hp) hs
          unfold setupFrom
          have harith : k + (n + 1) = (k + 1) + n := by omega
          rw [harith]
          cases hq : schedulePost q
          · exact hmem
          · exact List.mem_cons_of_mem _ hmem

/-- C5: `_setup_scheduler` registers every post whose timestamp parses,
under its position index and with the trigger derived from its parsed
time and repeat mode, regardless of failures of any other posts in the
list (a failing post is caught, logged, and skipped — the embedding is a
total function, so no exception reaches the caller). -/
theorem setup_scheduler_keeps_good_posts (posts : List Post) (i : Nat) (p : Post)
    (ts : String) (pt : PyDateTime)
    (hp : posts.get? i = some p) (ht : p.time = some ts) (hpt : strptime ts = some pt) :
    (i, mkTrigger pt (p.rep.getD "once")) ∈ setup_scheduler posts := by
  have hs : schedulePost p = some (mkTrigger pt (p.rep.getD "once")) := by
    simp [schedulePost, ht, hpt]
  have hmem := setupFrom_mem (mkTrigger pt (p.rep.getD "once")) posts 0 i p hp hs
  simpa using hmem

/-- Witness for C5: with an unparseable first post and a well-formed daily
second post, the second post is still registered under index 1. -/
theorem setup_scheduler_keeps_good_posts_witness :
    (1, mkTrigger ⟨2024, 1, 15, 9, 30, 0⟩ "daily") ∈ setup_scheduler [badPost, goodPost] :=
  setup_scheduler_keeps_good_posts [badPost, goodPost] 1 goodPost "2024-01-15 09:30:00"
    ⟨2024, 1, 15, 9, 30, 0⟩ rfl rfl (by decide)
